import Mathlib

/-!
Verification of the Firecracker integration-test framework (Python) against
its natural-language specification.  The Python source is shallowly embedded:
pure helpers become Lean functions, effectful methods become functions that
return a trace of the control-plane calls they issue together with their
result, and Python `assert` failures become `Except.error`.
-/

set_option maxHeartbeats 1000000

namespace FirecrackerSpec

/-! ## framework/http.py — `Session` status-classification callbacks

The Python `Session.__init__` installs five closures over the integer status
code.  Python integers are unbounded, so the code is `Int`.
-/

/-- Return true for all HTTP 2xx response codes (`200 <= response < 300`). -/
def is_good_response (response : Int) : Bool :=
  decide (200 ≤ response) && decide (response < 300)

/-- Return true when the HTTP response code is 200 OK. -/
def is_status_ok (response : Int) : Bool :=
  response == 200

/-- Return true when the HTTP response code is 204 NoContent. -/
def is_status_no_content (response : Int) : Bool :=
  response == 204

/-- Return true when the HTTP response code is 400 BadRequest. -/
def is_status_bad_request (response : Int) : Bool :=
  response == 400

/-- Return true when the HTTP response code is 404 NotFound. -/
def is_status_not_found (response : Int) : Bool :=
  response == 404

/-- The attribute table `Session.__init__` installs on the session object
(lines 47-51 of framework/http.py): name of the callback paired with the
classification function it is bound to.  These are the only classification
callbacks the constructor installs. -/
def sessionCallbacks : List (String × (Int → Bool)) :=
  [("is_good_response", is_good_response),
   ("is_status_ok", is_status_ok),
   ("is_status_no_content", is_status_no_content),
   ("is_status_bad_request", is_status_bad_request),
   ("is_status_not_found", is_status_not_found)]

/-- Attribute lookup on a `Session` object for the classification callbacks:
`getattr(session, name)` returns the bound function, or `none`
(an `AttributeError` in Python) when `__init__` never installed `name`. -/
def sessionGetattr (name : String) : Option (Int → Bool) :=
  (sessionCallbacks.find? (fun p => p.1 == name)).map (fun p => p.2)

/-! ## framework/builder.py — data model -/

/-- `os.path.join` for the paths appearing in builder.py (second component
never absolute there). -/
def joinPath (a b : String) : String := a ++ "/" ++ b

/-- Snapshot type selector (framework.artifacts.SnapshotType), as used by
`SnapshotBuilder.create`. -/
inductive SnapshotType where
  | FULL
  | DIFF
deriving DecidableEq, Repr, BEq

/-- The snapshot artifact record exactly as `SnapshotBuilder.create`
constructs it: `Snapshot(mem=..., vmstate=..., disks=..., ssh_key=...)`.
Paths are strings; `disks` is the list of disk paths. -/
structure Snapshot where
  mem : String
  vmstate : String
  disks : List String
  ssh_key : String
deriving DecidableEq, Repr

/-! ## SnapshotBuilder.create -/

/-- One effect issued by `SnapshotBuilder.create`, in program order. -/
inductive CreateEvent where
  /-- `self._microvm.api_session.untime()` -/
  | untime
  /-- `Path(snapshot_dir).mkdir(parents=True, exist_ok=True)` -/
  | mkdir (path : String)
  /-- `utils.run_cmd('chown uid:gid snapshot_dir')` -/
  | chown (uid gid : Nat) (path : String)
  /-- `self._microvm.pause_to_snapshot(mem_file_path, snapshot_path, diff)` -/
  | pause_to_snapshot (mem_file_path snapshot_path : String) (diff : Bool)
  /-- `ssh_key.copy()` -/
  | copy_ssh_key
deriving DecidableEq, Repr

/-- The parts of the surrounding microvm object that
`SnapshotBuilder.create` reads: the jailer chroot path and ownership ids,
and the local path the fresh `ssh_key.copy()` artifact reports. -/
structure CreateEnv where
  chroot_path : String
  uid : Nat
  gid : Nat
  ssh_key_copy_path : String

/-- Shallow embedding of `SnapshotBuilder.create(disks, ssh_key,
snapshot_type)` (framework/builder.py lines 125-157).  The method body is
straight-line and contains no `assert`, so the result is always `.ok`; the
trace lists its effects in program order and the returned `Snapshot` is the
one built at the `return` statement. -/
def SnapshotBuilder.create (env : CreateEnv) (disks : List String)
    (snapshot_type : SnapshotType) :
    Except String (List CreateEvent × Snapshot) :=
  let snapshot_dir := joinPath env.chroot_path "snapshot"
  Except.ok
    ([CreateEvent.untime,
      CreateEvent.mkdir snapshot_dir,
      CreateEvent.chown env.uid env.gid snapshot_dir,
      CreateEvent.pause_to_snapshot "/snapshot/vm.mem" "/snapshot/vm.vmstate"
        (snapshot_type == SnapshotType.DIFF),
      CreateEvent.copy_ssh_key],
     { mem := joinPath snapshot_dir "vm.mem",
       vmstate := joinPath snapshot_dir "vm.vmstate",
       disks := disks,
       ssh_key := env.ssh_key_copy_path })

/-! ## MicrovmBuilder.build_from_snapshot -/

/-- One effect issued by `MicrovmBuilder.build_from_snapshot`, in program
order.  Control-plane calls carry the status code the API returned. -/
inductive BuildEvent where
  /-- `vm.spawn(log_level='Info')` -/
  | spawn
  /-- `vm.create_jailed_resource(path)` — hard-link `path` into the jail -/
  | create_jailed_resource (path : String)
  /-- `vm.metrics.put(metrics_path=...)` -/
  | put_metrics (resp : Int)
  /-- `vm.snapshot_load.put(mem_file_path, snapshot_path, diff)` -/
  | snapshot_load (mem_file_path snapshot_path : String) (diff : Bool) (resp : Int)
  /-- `vm.create_tap_and_ssh_config(...)` -/
  | create_tap (host_ip : String)
  /-- `vm.vm.patch(state=...)` -/
  | patch_state (state : String) (resp : Int)
deriving DecidableEq, Repr

/-- The environment `build_from_snapshot` runs in: the path of the metrics
fifo it creates, how the jail maps a host path to a jailed path, and the
status codes the three control-plane calls come back with. -/
structure BuildEnv where
  metrics_fifo_path : String
  jailed : String → String
  metrics_resp : Int
  load_resp : Int
  resume_resp : Int

/-- Shallow embedding of `MicrovmBuilder.build_from_snapshot(snapshot, ...)`
(framework/builder.py lines 67-115).  Python `assert` becomes
`Except.error`; the trace records every effect issued before the failure
point.  The source order is: spawn, jail the metrics fifo, metrics PUT
(asserted 204), jail the memory file, jail the vmstate file, assert the
disk list is non-empty, jail each disk, optional tap setup, snapshot-load
PUT (asserted 204), and, only when `resume` is set, the `Resumed` state
patch (asserted 204). -/
def MicrovmBuilder.build_from_snapshot (env : BuildEnv) (snapshot : Snapshot)
    (host_ip : Option String) (resume : Bool)
    (enable_diff_snapshots : Bool) :
    List BuildEvent × Except String Unit :=
  let ev0 := [BuildEvent.spawn,
              BuildEvent.create_jailed_resource env.metrics_fifo_path,
              BuildEvent.put_metrics env.metrics_resp]
  if ¬ (is_status_no_content env.metrics_resp = true) then
    (ev0, Except.error "AssertionError")
  else
    let jailed_mem := env.jailed snapshot.mem
    let jailed_vmstate := env.jailed snapshot.vmstate
    let ev1 := ev0 ++ [BuildEvent.create_jailed_resource snapshot.mem,
                       BuildEvent.create_jailed_resource snapshot.vmstate]
    if ¬ (snapshot.disks.length > 0) then
      (ev1, Except.error "Snapshot requiures at least one disk.")
    else
      let ev2 := ev1 ++ snapshot.disks.map
        (fun d => BuildEvent.create_jailed_resource d)
      let ev2' := match host_ip with
        | some ip => ev2 ++ [BuildEvent.create_tap ip]
        | none => ev2
      let ev3 := ev2' ++ [BuildEvent.snapshot_load jailed_mem jailed_vmstate
                            enable_diff_snapshots env.load_resp]
      if ¬ (is_status_no_content env.load_resp = true) then
        (ev3, Except.error "AssertionError")
      else if resume then
        let ev4 := ev3 ++ [BuildEvent.patch_state "Resumed" env.resume_resp]
        if ¬ (is_status_no_content env.resume_resp = true) then
          (ev4, Except.error "AssertionError")
        else
          (ev4, Except.ok ())
      else
        (ev3, Except.ok ())

/-! ## MicrovmBuilder.build -/

/-- The microvm configuration `MicrovmBuilder.build` leaves behind
(framework/builder.py lines 29-61): the artifact paths linked into the vm
and the flags passed to `basic_config`. -/
structure VmSetup where
  kernel_file : String
  rootfs_file : String
  ssh_key_path : String
  track_dirty_pages : Bool
  boot_args : String
deriving DecidableEq, Repr

/-- Shallow embedding of `MicrovmBuilder.build(kernel, disks, ssh_key,
config, enable_diff_snapshots)`.  The only use of `disks` in the source is
`disks[0].local_path()`; indexing an empty Python list raises `IndexError`,
embedded as `Except.error "IndexError"`. -/
def MicrovmBuilder.build (kernel : String) (disks : List String)
    (ssh_key : String) (enable_diff_snapshots : Bool) :
    Except String VmSetup :=
  match disks with
  | [] => Except.error "IndexError"
  | d :: _ =>
    Except.ok
      { kernel_file := kernel,
        rootfs_file := d,
        ssh_key_path := ssh_key,
        track_dirty_pages := enable_diff_snapshots,
        boot_args := "console=ttyS0 reboot=k panic=1" }

/-! ## MMDS metadata service across snapshot and restore

The metadata service lives in the Firecracker VMM binary, which is not part
of this repository checkout; only its integration tests
(`test_mmds.py::test_mmds_snapshot`) are.  The state machine below is
modelled from the spec.
-/

/-- Modelled from the spec: the guest-observable state of a `VmHandle`'s
metadata service — the key-value data store readable through the
metadata/config endpoints, the set of currently valid session tokens, and a
counter for minting fresh tokens.  The VMM code holding this state is not
under src/. -/
structure MmdsState where
  store : List (String × String)
  valid_tokens : List Nat
  next_token : Nat
deriving DecidableEq, Repr

/-- Modelled from the spec: the snapshot image captured from a `VmHandle`
("restore(snapshot(vm)) must preserve guest-observable state read through
the metadata/config endpoints that existed at capture time").  The image
carries the data store; session tokens are explicitly-reset session state
and are not carried. -/
structure MmdsSnapshotImage where
  store : List (String × String)
deriving DecidableEq, Repr

/-- Modelled from the spec: capturing a snapshot of a `VmHandle` records
the metadata data store that existed at capture time. -/
def mmdsSnapshotOf (vm : MmdsState) : MmdsSnapshotImage :=
  { store := vm.store }

/-- Modelled from the spec: restoring a new `VmHandle` from a snapshot
image reproduces the captured data store, while "control-plane auth tokens
minted before capture are invalid after restore" — the valid-token set of
the restored VM is empty and token minting starts afresh. -/
def mmdsRestoreFrom (img : MmdsSnapshotImage) : MmdsState :=
  { store := img.store, valid_tokens := [], next_token := 0 }

/-- Modelled from the spec: resuming the same (paused) base `VmHandle`
changes no metadata state — "ensure session token is still valid" after the
`Resumed` patch on the base VM. -/
def mmdsResume (vm : MmdsState) : MmdsState := vm

/-- Modelled from the spec: host-side read of a metadata key through the
metadata/config endpoint (no session token involved). -/
def mmdsGetStore (vm : MmdsState) (key : String) : Option String :=
  (vm.store.find? (fun p => p.1 == key)).map (fun p => p.2)

/-- Modelled from the spec: minting a session token (`PUT /latest/api/token`
with a ttl) returns a fresh token and registers it as valid on that VM. -/
def mmdsGenerateToken (vm : MmdsState) (_ttl : Nat) : Nat × MmdsState :=
  (vm.next_token,
   { vm with valid_tokens := vm.next_token :: vm.valid_tokens,
             next_token := vm.next_token + 1 })

/-- Modelled from the spec: a guest metadata GET presenting a session
token.  A token the VM did not mint (or that restore invalidated) is
rejected with exactly the body "MMDS token not valid."; a valid token reads
the store. -/
def mmdsGetWithToken (vm : MmdsState) (token : Nat) (key : String) :
    Except String String :=
  if token ∈ vm.valid_tokens then
    match mmdsGetStore vm key with
    | some v => Except.ok v
    | none => Except.error "Not found"
  else
    Except.error "MMDS token not valid."

/-! ## Snapshot-create targeting legacy version "0.23.0"

The device-count check lives in the VMM binary, not in this checkout; the
constant and the boundary behaviour are modelled from the spec and the
constant's definition in test_snapshot_version.py.
-/

/-- Firecracker v0.23 used 16 IRQ lines; for virtio devices IRQs 5..23 are
available, so at most 11 devices could be attached at a time
(test_snapshot_version.py lines 11-14). -/
def FC_V0_23_MAX_DEVICES_ATTACHED : Nat := 11

/-- An API response: status code and body text. -/
structure ApiResponse where
  status_code : Int
  text : String
deriving DecidableEq, Repr

/-- Modelled from the spec: the snapshot-create call targeting version
"0.23.0" on a paused microVM with `attached_devices` total devices (root
drive included).  At most `FC_V0_23_MAX_DEVICES_ATTACHED` devices succeed
with 204 No Content; one more fails with 400 Bad Request and "Too many
devices attached" in the body. -/
def snapshotCreateV0_23 (attached_devices : Nat) : ApiResponse :=
  if attached_devices ≤ FC_V0_23_MAX_DEVICES_ATTACHED then
    { status_code := 204, text := "" }
  else
    { status_code := 400, text := "Too many devices attached" }

/-! ## host_tools/fcmetrics.py — FCMetricsMonitor

The monitor keeps `metrics_index`, the count of records already forwarded,
and on each drain forwards `all_metrics[metrics_index:]` one record at a
time, incrementing the index per record.  `forwarded` is the log of
`flush_fc_metrics_to_cw` calls, in order.
-/

/-- The observable state of an `FCMetricsMonitor`: the `running` flag, the
`metrics_index` cursor, and the log of records forwarded to the telemetry
sink so far. -/
structure MonitorState (α : Type) where
  running : Bool
  metrics_index : Nat
  forwarded : List α
deriving Repr

/-- The body of the `for metrics in all_metrics[self.metrics_index:]` loop:
forward one record and advance the index. -/
def forwardOne (s : MonitorState α) (m : α) : MonitorState α :=
  { s with metrics_index := s.metrics_index + 1,
           forwarded := s.forwarded ++ [m] }

/-- `FCMetricsMonitor._flush_metrics`: fetch `all_metrics` (here a
parameter: the cumulative list `vm.get_all_metrics()` returns at this
moment) and forward every record from `metrics_index` on. -/
def flush_metrics (all_metrics : List α) (s : MonitorState α) :
    MonitorState α :=
  (all_metrics.drop s.metrics_index).foldl forwardOne s

/-- The periodic part of `FCMetricsMonitor.run`: one `_flush_metrics` call
per tick, each tick observing the cumulative metrics list of that moment. -/
def runTicks (snaps : List (List α)) (s : MonitorState α) : MonitorState α :=
  snaps.foldl (fun s all => flush_metrics all s) s

/-- `FCMetricsMonitor.stop`: clear `running`, join the thread, issue the
`FlushMetrics` action, and drain once more against the final cumulative
metrics list. -/
def monitorStop (final : List α) (s : MonitorState α) : MonitorState α :=
  flush_metrics final { s with running := false }

/-- The monitor's initial state (`metrics_index = 0`, nothing forwarded),
with the thread running. -/
def monitorInit : MonitorState α :=
  { running := true, metrics_index := 0, forwarded := [] }

/-- The append-only hypothesis on the successive values of
`vm.get_all_metrics()`: each observed list is a prefix of the next (the
later list is the earlier one with records appended). -/
def AppendOnly {α : Type} : List (List α) → Prop
  | [] => True
  | [_] => True
  | a :: b :: rest => (∃ ext, b = a ++ ext) ∧ AppendOnly (b :: rest)

/-! ## Theorems -/

/-- C5: the session's status-classification predicates are pure functions of
the integer status code: `is_good_response` holds exactly for
`200 <= code < 300`, `is_status_ok` exactly for 200, `is_status_no_content`
exactly for 204, `is_status_bad_request` exactly for 400,
`is_status_not_found` exactly for 404; code 204 satisfies
`is_status_no_content` and `is_good_response` but not `is_status_ok`, and
code 400 satisfies `is_status_bad_request` and no other predicate. -/
theorem session_status_predicates_characterized :
    (∀ code : Int, is_good_response code = true ↔ 200 ≤ code ∧ code < 300) ∧
    (∀ code : Int, is_status_ok code = true ↔ code = 200) ∧
    (∀ code : Int, is_status_no_content code = true ↔ code = 204) ∧
    (∀ code : Int, is_status_bad_request code = true ↔ code = 400) ∧
    (∀ code : Int, is_status_not_found code = true ↔ code = 404) ∧
    (is_status_no_content 204 = true ∧ is_good_response 204 = true ∧
      is_status_ok 204 = false) ∧
    (is_status_bad_request 400 = true ∧ is_good_response 400 = false ∧
      is_status_ok 400 = false ∧ is_status_no_content 400 = false ∧
      is_status_not_found 400 = false) := by
  refine ⟨?_, ?_, ?_, ?_, ?_, by decide, by decide⟩ <;> intro code <;>
    simp [is_good_response, is_status_ok, is_status_no_content,
      is_status_bad_request, is_status_not_found]

/-- C6: `Session.__init__` installs no `is_status_payload_too_large`
callback — looking that attribute up among the classification callbacks the
constructor binds yields nothing, so the call
`api_session.is_status_payload_too_large(413)` made by
`test_patch_dos_scenario` raises `AttributeError`. -/
theorem session_payload_too_large_callback_missing :
    sessionGetattr "is_status_payload_too_large" = none := by
  rfl

/-- C7 counterexample: `SnapshotBuilder.create` called with an empty disks
list does not fail with an `AssertionError`; it returns normally, and the
returned `Snapshot` has an empty `disks` field. -/
theorem create_empty_disks_counterexample :
    (∃ tr snap,
      SnapshotBuilder.create ⟨"/srv/jailer/fc/chroot", 123, 100, "/tmp/ssh_key"⟩
        [] SnapshotType.FULL = Except.ok (tr, snap) ∧ snap.disks = []) ∧
    ¬ (∃ msg,
      SnapshotBuilder.create ⟨"/srv/jailer/fc/chroot", 123, 100, "/tmp/ssh_key"⟩
        [] SnapshotType.FULL = Except.error msg) := by
  refine ⟨⟨_, _, rfl, rfl⟩, ?_⟩
  rintro ⟨msg, h⟩
  simp [SnapshotBuilder.create] at h

/-- C7 amended: `SnapshotBuilder.create` with an empty disks list succeeds
and returns a `Snapshot` whose `disks` field is empty; the `AssertionError`
guarding against an empty disk list is raised later, by
`MicrovmBuilder.build_from_snapshot` on such a snapshot, before the
load-snapshot control call is issued. -/
theorem create_empty_disks_amended (env : CreateEnv) (benv : BuildEnv)
    (host_ip : Option String) (resume diff : Bool) (snapshot : Snapshot)
    (hd : snapshot.disks = []) :
    (∃ tr snap, SnapshotBuilder.create env [] SnapshotType.FULL
        = Except.ok (tr, snap) ∧ snap.disks = []) ∧
    (∃ msg, (MicrovmBuilder.build_from_snapshot benv snapshot host_ip resume
        diff).2 = Except.error msg) ∧
    (∀ mf sp d r, BuildEvent.snapshot_load mf sp d r ∉
      (MicrovmBuilder.build_from_snapshot benv snapshot host_ip resume
        diff).1) := by
  refine ⟨⟨_, _, rfl, rfl⟩, ?_, ?_⟩ <;>
    simp [MicrovmBuilder.build_from_snapshot, hd] <;>
    by_cases hm : is_status_no_content benv.metrics_resp = true <;>
    simp [hm]

/-- C7 amended witness: the amended statement at a concrete environment and
a concrete empty-disk snapshot. -/
theorem create_empty_disks_amended_witness :
    Snapshot.disks ⟨"/m", "/v", [], "/k"⟩ = [] ∧
    (∃ msg, (MicrovmBuilder.build_from_snapshot
        ⟨"/fifo", fun p => p, 204, 204, 204⟩ ⟨"/m", "/v", [], "/k"⟩
        none true true).2 = Except.error msg) :=
  ⟨rfl,
   (create_empty_disks_amended ⟨"/c", 0, 0, "/k"⟩
      ⟨"/fifo", fun p => p, 204, 204, 204⟩ none true true
      ⟨"/m", "/v", [], "/k"⟩ rfl).2.1⟩

/-- C10: `MicrovmBuilder.build` uses only `disks[0]` as the new microVM's
rootfs: the result is the same for any tail of the disk list (elements
after the first are never referenced and no drive is attached for them),
and an empty disks list fails with `IndexError`. -/
theorem build_uses_only_first_disk (kernel ssh_key : String) (diff : Bool)
    (d : String) (rest rest' : List String) :
    MicrovmBuilder.build kernel (d :: rest) ssh_key diff
      = MicrovmBuilder.build kernel (d :: rest') ssh_key diff ∧
    MicrovmBuilder.build kernel (d :: rest) ssh_key diff
      = Except.ok
          { kernel_file := kernel,
            rootfs_file := d,
            ssh_key_path := ssh_key,
            track_dirty_pages := diff,
            boot_args := "console=ttyS0 reboot=k panic=1" } ∧
    MicrovmBuilder.build kernel [] ssh_key diff
      = Except.error "IndexError" :=
  ⟨rfl, rfl, rfl⟩

/-- C1: `SnapshotBuilder.create(disks, ssh_key, snapshot_type)` first
disables the API session's request timeout (`untime` is the first effect),
later invokes `pause_to_snapshot` with mem_file_path "/snapshot/vm.mem",
snapshot_path "/snapshot/vm.vmstate" and `diff = (snapshot_type == DIFF)`,
and returns a `Snapshot` whose `disks` field is the argument unchanged,
whose `ssh_key` is the local path of the fresh ssh-key copy, and whose
mem/vmstate paths are vm.mem and vm.vmstate inside the jail's snapshot
subdirectory. -/
theorem snapshot_builder_create_spec (env : CreateEnv) (disks : List String)
    (st : SnapshotType) :
    ∃ tr snap, SnapshotBuilder.create env disks st = Except.ok (tr, snap) ∧
      (∃ rest, tr = CreateEvent.untime :: rest ∧
        CreateEvent.pause_to_snapshot "/snapshot/vm.mem" "/snapshot/vm.vmstate"
          (st == SnapshotType.DIFF) ∈ rest) ∧
      snap.disks = disks ∧
      snap.ssh_key = env.ssh_key_copy_path ∧
      snap.mem = joinPath (joinPath env.chroot_path "snapshot") "vm.mem" ∧
      snap.vmstate = joinPath (joinPath env.chroot_path "snapshot") "vm.vmstate" := by
  refine ⟨_, _, rfl, ⟨_, rfl, ?_⟩, rfl, rfl, rfl, rfl⟩
  simp

/-- C3: restoring from a snapshot preserves the metadata store readable
through the metadata/config endpoints: every key reads back identically,
and in particular a key "ami-id" set to "ami-12345678" before capture reads
back identically after restore. -/
theorem mmds_roundtrip_preserves_store (vm : MmdsState) (key : String) :
    mmdsGetStore (mmdsRestoreFrom (mmdsSnapshotOf vm)) key
      = mmdsGetStore vm key ∧
    mmdsGetStore
      (mmdsRestoreFrom (mmdsSnapshotOf ⟨[("ami-id", "ami-12345678")], [], 0⟩))
      "ami-id" = some "ami-12345678" :=
  ⟨rfl, rfl⟩

/-- C8: a snapshot-create call targeting version "0.23.0" succeeds on a
microVM with exactly `FC_V0_23_MAX_DEVICES_ATTACHED` = 11 total devices
(10 network devices plus the root drive) and fails with 400 Bad Request and
"Too many devices attached" with one more device (11 network devices plus
the root drive, 12 total). -/
theorem snapshot_v0_23_device_boundary :
    FC_V0_23_MAX_DEVICES_ATTACHED = 11 ∧
    is_status_no_content (snapshotCreateV0_23 (10 + 1)).status_code = true ∧
    is_status_bad_request (snapshotCreateV0_23 (11 + 1)).status_code = true ∧
    (snapshotCreateV0_23 (11 + 1)).text = "Too many devices attached" := by
  refine ⟨rfl, by decide, by decide, rfl⟩

/-- Guest metadata GET with a token the VM currently holds as valid reads
the store. -/
theorem mmdsGetWithToken_valid (vm : MmdsState) (tok : Nat) (key v : String)
    (ht : tok ∈ vm.valid_tokens) (h : mmdsGetStore vm key = some v) :
    mmdsGetWithToken vm tok key = Except.ok v := by
  simp [mmdsGetWithToken, ht, h]

/-- Guest metadata GET with a token the VM does not hold as valid is
rejected with exactly "MMDS token not valid.". -/
theorem mmdsGetWithToken_invalid (vm : MmdsState) (tok : Nat) (key : String)
    (ht : tok ∉ vm.valid_tokens) :
    mmdsGetWithToken vm tok key = Except.error "MMDS token not valid." := by
  simp [mmdsGetWithToken, ht]

/-- C4: a session token minted on a base VM (ttl 60) is accepted before
snapshot capture and after resuming that same base VM, but on a VM restored
from the snapshot it is rejected with exactly "MMDS token not valid." while
a token newly minted on the restored VM is accepted — restore invalidates
all previously minted tokens (the restored VM's valid-token set is
empty). -/
theorem mmds_restore_invalidates_tokens (vm : MmdsState) (key v : String)
    (h : mmdsGetStore vm key = some v) :
    mmdsGetWithToken (mmdsGenerateToken vm 60).2
      (mmdsGenerateToken vm 60).1 key = Except.ok v ∧
    mmdsGetWithToken (mmdsResume (mmdsGenerateToken vm 60).2)
      (mmdsGenerateToken vm 60).1 key = Except.ok v ∧
    mmdsGetWithToken (mmdsRestoreFrom (mmdsSnapshotOf (mmdsGenerateToken vm 60).2))
      (mmdsGenerateToken vm 60).1 key = Except.error "MMDS token not valid." ∧
    mmdsGetWithToken
      (mmdsGenerateToken (mmdsRestoreFrom (mmdsSnapshotOf (mmdsGenerateToken vm 60).2)) 60).2
      (mmdsGenerateToken (mmdsRestoreFrom (mmdsSnapshotOf (mmdsGenerateToken vm 60).2)) 60).1
      key = Except.ok v ∧
    (mmdsRestoreFrom (mmdsSnapshotOf (mmdsGenerateToken vm 60).2)).valid_tokens = [] := by
  have h1 : mmdsGetStore (mmdsGenerateToken vm 60).2 key = some v := h
  have h2 : mmdsGetStore
      (mmdsGenerateToken (mmdsRestoreFrom (mmdsSnapshotOf (mmdsGenerateToken vm 60).2)) 60).2
      key = some v := h
  refine ⟨?_, ?_, ?_, ?_, rfl⟩
  · exact mmdsGetWithToken_valid _ _ _ _ (List.mem_cons_self _ _) h1
  · exact mmdsGetWithToken_valid _ _ _ _ (List.mem_cons_self _ _) h1
  · exact mmdsGetWithToken_invalid _ _ _ (List.not_mem_nil _)
  · exact mmdsGetWithToken_valid _ _ _ _ (List.mem_cons_self _ _) h2

/-- C4 witness: the token-invalidation scenario at a concrete base VM whose
store maps "ami-id" to "ami-12345678". -/
theorem mmds_restore_invalidates_tokens_witness :
    mmdsGetStore ⟨[("ami-id", "ami-12345678")], [], 0⟩ "ami-id"
      = some "ami-12345678" ∧
    mmdsGetWithToken
      (mmdsRestoreFrom (mmdsSnapshotOf
        (mmdsGenerateToken ⟨[("ami-id", "ami-12345678")], [], 0⟩ 60).2))
      (mmdsGenerateToken ⟨[("ami-id", "ami-12345678")], [], 0⟩ 60).1 "ami-id"
      = Except.error "MMDS token not valid." :=
  ⟨rfl,
   (mmds_restore_invalidates_tokens ⟨[("ami-id", "ami-12345678")], [], 0⟩
      "ami-id" "ami-12345678" rfl).2.2.1⟩

/-- C2: `MicrovmBuilder.build_from_snapshot` with an empty disk list fails
with an `AssertionError` before the load-snapshot control call is issued;
with a non-empty disk list (and the metrics and load-snapshot calls
answering 204) the memory file, the vmstate file, and exactly
`len(snapshot.disks)` disk files are hard-linked into the fresh jail before
the load-snapshot call is issued, and the "Resumed" state patch is issued
if and only if `resume` is true. -/
theorem build_from_snapshot_spec (env : BuildEnv) (snapshot : Snapshot)
    (host_ip : Option String) (resume diff : Bool)
    (hm : is_status_no_content env.metrics_resp = true)
    (hl : is_status_no_content env.load_resp = true) :
    (snapshot.disks = [] →
      (∃ msg, (MicrovmBuilder.build_from_snapshot env snapshot host_ip resume
          diff).2 = Except.error msg) ∧
      ∀ mf sp d r, BuildEvent.snapshot_load mf sp d r ∉
        (MicrovmBuilder.build_from_snapshot env snapshot host_ip resume
          diff).1) ∧
    (snapshot.disks ≠ [] →
      ∃ rest,
        (MicrovmBuilder.build_from_snapshot env snapshot host_ip resume
          diff).1 =
        [BuildEvent.spawn,
         BuildEvent.create_jailed_resource env.metrics_fifo_path,
         BuildEvent.put_metrics env.metrics_resp,
         BuildEvent.create_jailed_resource snapshot.mem,
         BuildEvent.create_jailed_resource snapshot.vmstate] ++
        snapshot.disks.map (fun d => BuildEvent.create_jailed_resource d) ++
        (match host_ip with
         | some ip => [BuildEvent.create_tap ip]
         | none => []) ++
        [BuildEvent.snapshot_load (env.jailed snapshot.mem)
          (env.jailed snapshot.vmstate) diff env.load_resp] ++ rest) ∧
    (snapshot.disks ≠ [] →
      ((∃ r, BuildEvent.patch_state "Resumed" r ∈
          (MicrovmBuilder.build_from_snapshot env snapshot host_ip resume
            diff).1) ↔ resume = true)) := by
  refine ⟨fun hd => ⟨?_, ?_⟩, fun hd => ?_, fun hd => ?_⟩
  · exact ⟨"Snapshot requiures at least one disk.",
      by simp [MicrovmBuilder.build_from_snapshot, hd, hm]⟩
  · intro mf sp d r
    simp [MicrovmBuilder.build_from_snapshot, hd, hm]
  · have hlen : 0 < snapshot.disks.length := List.length_pos.mpr hd
    cases resume <;> cases host_ip <;>
      by_cases hr : is_status_no_content env.resume_resp = true <;>
      simp [MicrovmBuilder.build_from_snapshot, hm, hl, hlen, hr]
  · have hlen : 0 < snapshot.disks.length := List.length_pos.mpr hd
    cases resume <;> cases host_ip <;>
      by_cases hr : is_status_no_content env.resume_resp = true <;>
      simp [MicrovmBuilder.build_from_snapshot, hm, hl, hlen, hr]

/-- C2 witness: the non-empty-disks branch at a concrete environment where
all control calls answer 204, with one disk and `resume = true`: the trace
up to the load-snapshot call, and the "Resumed" patch being issued. -/
theorem build_from_snapshot_spec_witness :
    (∃ rest,
      (MicrovmBuilder.build_from_snapshot ⟨"/fifo", fun p => p, 204, 204, 204⟩
        ⟨"/m", "/v", ["/d0"], "/k"⟩ none true true).1 =
      [BuildEvent.spawn,
       BuildEvent.create_jailed_resource "/fifo",
       BuildEvent.put_metrics 204,
       BuildEvent.create_jailed_resource "/m",
       BuildEvent.create_jailed_resource "/v"] ++
      ["/d0"].map (fun d => BuildEvent.create_jailed_resource d) ++
      [] ++
      [BuildEvent.snapshot_load "/m" "/v" true 204] ++ rest) ∧
    ((∃ r, BuildEvent.patch_state "Resumed" r ∈
        (MicrovmBuilder.build_from_snapshot ⟨"/fifo", fun p => p, 204, 204, 204⟩
          ⟨"/m", "/v", ["/d0"], "/k"⟩ none true true).1) ↔ true = true) :=
  ⟨(build_from_snapshot_spec ⟨"/fifo", fun p => p, 204, 204, 204⟩
      ⟨"/m", "/v", ["/d0"], "/k"⟩ none true true (by decide) (by decide)).2.1
      (by simp),
   (build_from_snapshot_spec ⟨"/fifo", fun p => p, 204, 204, 204⟩
      ⟨"/m", "/v", ["/d0"], "/k"⟩ none true true (by decide) (by decide)).2.2
      (by simp)⟩

/-- Closed form of the forwarding loop of `_flush_metrics`: folding
`forwardOne` over a slice appends the slice to the forwarded log and
advances the index by its length, leaving `running` untouched. -/
theorem foldl_forwardOne (l : List α) (s : MonitorState α) :
    l.foldl forwardOne s =
      { running := s.running,
        metrics_index := s.metrics_index + l.length,
        forwarded := s.forwarded ++ l } := by
  induction l generalizing s with
  | nil => simp
  | cons a t ih =>
    rw [List.foldl_cons, ih]
    simp [forwardOne]
    omega

/-- `_flush_metrics` against a cumulative list extending the already
forwarded log forwards exactly the new suffix: afterwards the forwarded log
equals the cumulative list and the index equals its length. -/
theorem flush_metrics_spec (all : List α) (s : MonitorState α)
    (hidx : s.metrics_index = s.forwarded.length)
    (hext : ∃ ext, all = s.forwarded ++ ext) :
    (flush_metrics all s).running = s.running ∧
    (flush_metrics all s).metrics_index = all.length ∧
    (flush_metrics all s).forwarded = all := by
  obtain ⟨ext, rfl⟩ := hext
  rw [flush_metrics, foldl_forwardOne]
  refine ⟨rfl, ?_, ?_⟩ <;> simp [hidx]

/-- Draining through a monotone chain of cumulative metrics lists ending in
`final` leaves the forwarded log equal to `final`, with the index at its
length; the `running` flag is threaded through unchanged. -/
theorem runTicks_drain (snaps : List (List α)) (final : List α)
    (s : MonitorState α)
    (hidx : s.metrics_index = s.forwarded.length)
    (hchain : AppendOnly ((s.forwarded :: snaps) ++ [final])) :
    (runTicks (snaps ++ [final]) s).running = s.running ∧
    (runTicks (snaps ++ [final]) s).metrics_index = final.length ∧
    (runTicks (snaps ++ [final]) s).forwarded = final := by
  induction snaps generalizing s with
  | nil =>
    have hc : (∃ ext, final = s.forwarded ++ ext) ∧ AppendOnly [final] := hchain
    have := flush_metrics_spec final s hidx hc.1
    simpa [runTicks] using this
  | cons a t ih =>
    have hc : (∃ ext, a = s.forwarded ++ ext) ∧
        AppendOnly ((a :: t) ++ [final]) := hchain
    have hs := flush_metrics_spec a s hidx hc.1
    have hidx' : (flush_metrics a s).metrics_index
        = (flush_metrics a s).forwarded.length := by
      rw [hs.2.1, hs.2.2]
    have hchain' :
        AppendOnly (((flush_metrics a s).forwarded :: t) ++ [final]) := by
      rw [hs.2.2]; exact hc.2
    have hmain := ih (flush_metrics a s) hidx' hchain'
    have hrun : (runTicks (t ++ [final]) (flush_metrics a s)).running
        = s.running := by rw [hmain.1, hs.1]
    refine ⟨?_, ?_, ?_⟩
    · simpa [runTicks, List.foldl_cons] using hrun
    · simpa [runTicks, List.foldl_cons] using hmain.2.1
    · simpa [runTicks, List.foldl_cons] using hmain.2.2

/-- The final drain of `stop()` first clears `running` and then flushes;
clearing the flag commutes with the flush, which never touches it. -/
theorem monitorStop_as_runTicks (snaps : List (List α)) (final : List α) :
    monitorStop final (runTicks snaps (monitorInit (α := α))) =
      { runTicks (snaps ++ [final]) (monitorInit (α := α)) with
          running := false } := by
  rw [monitorStop, runTicks, runTicks, List.foldl_append]
  simp [flush_metrics, foldl_forwardOne]

/-- C9: assuming `vm.get_all_metrics()` always returns the cumulative
append-only record list, the monitor forwards each record to the telemetry
sink exactly once — after the periodic run-loop ticks and the final drain
of `stop()` (running flag cleared), the forwarded log is exactly the final
cumulative list, with `metrics_index` equal to its length (one advance per
forwarded record, no index ever revisited). -/
theorem fcmetrics_each_record_forwarded_once (snaps : List (List α))
    (final : List α) (hchain : AppendOnly (snaps ++ [final])) :
    (monitorStop final (runTicks snaps (monitorInit (α := α)))).forwarded
      = final ∧
    (monitorStop final (runTicks snaps (monitorInit (α := α)))).metrics_index
      = final.length ∧
    (monitorStop final (runTicks snaps (monitorInit (α := α)))).running
      = false := by
  have base : AppendOnly ((([] : List α) :: snaps) ++ [final]) := by
    cases snaps with
    | nil => exact ⟨⟨final, rfl⟩, trivial⟩
    | cons a t => exact ⟨⟨a, rfl⟩, hchain⟩
  have hmain := runTicks_drain snaps final (monitorInit (α := α)) rfl base
  rw [monitorStop_as_runTicks]
  exact ⟨hmain.2.2, hmain.2.1, rfl⟩

/-- C9 witness: a concrete append-only run — ticks observe [0] then [0, 1],
the final drain observes [0, 1, 2]; every record is forwarded exactly
once. -/
theorem fcmetrics_each_record_forwarded_once_witness :
    AppendOnly ([[0], [0, 1]] ++ [[0, 1, 2]]) ∧
    (monitorStop [0, 1, 2]
      (runTicks [[0], [0, 1]] (monitorInit (α := Nat)))).forwarded
      = [0, 1, 2] := by
  have hA : AppendOnly ([[0], [0, 1]] ++ [[0, 1, 2]]) := by
    show (∃ ext, [0, 1] = [0] ++ ext) ∧ (∃ ext, [0, 1, 2] = [0, 1] ++ ext) ∧ True
    exact ⟨⟨[1], rfl⟩, ⟨[2], rfl⟩, trivial⟩
  exact ⟨hA, (fcmetrics_each_record_forwarded_once [[0], [0, 1]] [0, 1, 2] hA).1⟩

end FirecrackerSpec
